import Mathlib

/-!
Shallow embedding of `healthcareai/trained_models/trained_supervised_model.py`:
the `TrainedSupervisedModel` class, its pandas-backed helper operations, and the
error behaviour of its preparation step.

A pandas `DataFrame` is modelled as a row-labelled, column-named, row-major grid
of cell values.  The opaque fitted collaborators (the predictor, the feature
attribution routine, the preprocessing pipeline) are function-valued fields of
the handle, per the collaborator contracts: the pipeline is a total,
deterministic table-to-table map; the predictor and the attribution routine are
total functions whose shape obligations appear as hypotheses where a theorem
needs them.
-/

set_option autoImplicit false

/-- A scalar cell value of a dataframe: missing (NaN), a number, or a string. -/
inductive Value : Type where
  | na : Value
  | int : Int → Value
  | str : String → Value
deriving Repr, DecidableEq

/-- The Python exceptions this module can surface: the plain `KeyError` of a
failed column lookup (carrying the labels that were not found), a pandas
`ValueError`, an `AttributeError` from a failed attribute lookup, and the
domain-specific `HealthcareAIError` carrying an enriched message. -/
inductive PyError : Type where
  | keyError : List String → PyError
  | valueError : String → PyError
  | attributeError : String → PyError
  | healthcareAIError : String → PyError
deriving Repr, DecidableEq

/-- A pandas `DataFrame`: row labels (`index`), column names (`columns`), and
row-major cell data.  Well-formedness (`data.length = index.length`, every row
as wide as `columns`) is carried as hypotheses where a theorem needs it. -/
structure DataFrame : Type where
  index : List Int
  columns : List String
  data : List (List Value)
deriving Repr, DecidableEq

/-- Position of a column label (first occurrence), as pandas resolves a label. -/
def DataFrame.colPos (df : DataFrame) (n : String) : Option Nat :=
  df.columns.findIdx? (fun c => c == n)

/-- Cell of a row at a named column, `Value.na` when the label is absent. -/
def DataFrame.cell (df : DataFrame) (row : List Value) (n : String) : Value :=
  match df.colPos n with
  | some i => row.getD i Value.na
  | none => Value.na

/-- Python `df[names]` with a list of labels: projects the frame to exactly
those columns in the requested order, keeping the row index; raises `KeyError`
listing the requested labels that are absent from the frame. -/
def DataFrame.select (df : DataFrame) (names : List String) : Except PyError DataFrame :=
  let missing := names.filter (fun n => !(df.columns.contains n))
  if missing.isEmpty then
    Except.ok ⟨df.index, names, df.data.map (fun row => names.map (fun n => df.cell row n))⟩
  else
    Except.error (PyError.keyError missing)

/-- Python `df[name] = vals` with a list on the right-hand side: requires one
value per row, overwrites the column in place when the label exists and appends
it as the last column otherwise. -/
def DataFrame.setColumn (df : DataFrame) (name : String) (vals : List Value) :
    Except PyError DataFrame :=
  if vals.length = df.index.length then
    match df.colPos name with
    | some i =>
        Except.ok ⟨df.index, df.columns, (df.data.zip vals).map (fun rv => rv.1.set i rv.2)⟩
    | none =>
        Except.ok ⟨df.index, df.columns ++ [name], (df.data.zip vals).map (fun rv => rv.1 ++ [rv.2])⟩
  else
    Except.error (PyError.valueError "Length of values does not match length of index")

/-- Python `pd.DataFrame(data, columns=columns, index=index)` on a list of
rows: the data must have one row per index label and one cell per column name,
otherwise pandas rejects the shape. -/
def pdDataFrame (data : List (List Value)) (columns : List String) (index : List Int) :
    Except PyError DataFrame :=
  if data.length = index.length ∧ ∀ r ∈ data, r.length = columns.length then
    Except.ok ⟨index, columns, data⟩
  else
    Except.error (PyError.valueError "Shape of passed values does not match indices")

/-- pandas row reindexing onto `idx`: a no-op when the frame's index already
equals `idx` (the pandas fast path), otherwise a by-label first-occurrence
lookup filling absent labels with `Value.na`, refused on a duplicate source
axis as pandas refuses to reindex from a duplicate axis. -/
def DataFrame.reindexRows (df : DataFrame) (idx : List Int) : Except PyError DataFrame :=
  if df.index = idx then
    Except.ok df
  else if df.index.Nodup then
    Except.ok ⟨idx, df.columns,
      idx.map (fun lbl =>
        match df.index.findIdx? (fun l => l == lbl) with
        | some i => df.data.getD i (df.columns.map (fun _ => Value.na))
        | none => df.columns.map (fun _ => Value.na))⟩
  else
    Except.error (PyError.valueError "cannot reindex from a duplicate axis")

/-- Horizontal pasting of two frames that share a row index, positionally. -/
def hconcat2 (a b : DataFrame) : DataFrame :=
  ⟨a.index, a.columns ++ b.columns, List.zipWith (fun r s => r ++ s) a.data b.data⟩

/-- Python `pd.concat([a, b], axis=1, join_axes=[idx])`: reindex each frame's
rows onto the forced axis `idx`, then paste the columns side by side. -/
def pdConcatAxis1 (a b : DataFrame) (idx : List Int) : Except PyError DataFrame := do
  let a2 ← a.reindexRows idx
  let b2 ← b.reindexRows idx
  Except.ok (hconcat2 a2 b2)

/-- The `TrainedSupervisedModel` handle, mirroring the fields bound in
`__init__`.  The opaque fitted collaborators are embedded as function-valued
fields: `model` is the predictor entry point `model.predict` (one call on a
prepared frame returning a list of values), `top_k_features` is
`factors.top_k_features` already applied to the captured `feature_model`
argument, and `fit_pipeline` is the pipeline entry point
`fit_pipeline.transform`. -/
structure TrainedSupervisedModel : Type where
  model : DataFrame → List Value
  top_k_features : DataFrame → Nat → List (List Value)
  fit_pipeline : DataFrame → DataFrame
  model_type : String
  column_names : List String
  grain_column : String
  prediction_column : String
  y_pred : List Value
  y_actual : List Value

/-- Renders a list of column names the way the interpolated error message
lists it. -/
def showFields (l : List String) : String :=
  "[" ++ String.intercalate ", " l ++ "]"

/-- The enriched message `prepare_and_subset` formats into its
`HealthcareAIError`: the required column list, the columns of the caller's raw
frame, and the missing labels surfaced by the underlying `KeyError`. -/
def missingColumnsMessage (required given missing : List String) : String :=
  "One or more of the columns that the saved trained model needs is not in the dataframe. "
    ++ "Please compare these lists to see which field(s) is/are missing. "
    ++ "Note that you can pass in extra fields, which will be ignored, "
    ++ "but you must pass in all the required fields. "
    ++ "Required fields: " ++ showFields required
    ++ " Given fields: " ++ showFields given
    ++ " Likely missing field(s): " ++ showFields missing

/-- `prepare_and_subset`: run the saved pipeline over the raw frame, subset the
result to `column_names`, and wrap the `KeyError` of a failed subset in a
`HealthcareAIError` carrying the enriched message; any other error kind would
propagate unmodified, as only `KeyError` is caught. -/
def TrainedSupervisedModel.prepare_and_subset (self : TrainedSupervisedModel)
    (dataframe : DataFrame) : Except PyError DataFrame :=
  let prepared_dataframe := self.fit_pipeline dataframe
  match prepared_dataframe.select self.column_names with
  | Except.ok r => Except.ok r
  | Except.error (PyError.keyError ke) =>
      Except.error (PyError.healthcareAIError
        (missingColumnsMessage self.column_names dataframe.columns ke))
  | Except.error e => Except.error e

/-- `make_predictions`: prepare the raw frame, then invoke the predictor's
generic point-prediction entry point `self.model.predict` on the prepared
frame. -/
def TrainedSupervisedModel.make_predictions (self : TrainedSupervisedModel)
    (dataframe : DataFrame) : Except PyError (List Value) := do
  let prepared_dataframe ← self.prepare_and_subset dataframe
  Except.ok (self.model prepared_dataframe)

/-- The list comprehension building the factor column names
`Factor1TXT ... FactorKTXT` over `range(1, number_top_features + 1)`. -/
def reasonColNames (number_top_features : Nat) : List String :=
  (List.range' 1 number_top_features).map (fun i => "Factor" ++ toString i ++ "TXT")

/-- `make_factors` (Python default `number_top_features=3`): prepare the raw
frame, seed a result frame with the grain column of the raw frame, obtain the
two-dimensional factor list from the attribution collaborator on the prepared
frame, wrap it in a frame carrying the raw frame's own index, and concatenate
the two frames on axis 1 forced onto the raw frame's index. -/
def TrainedSupervisedModel.make_factors (self : TrainedSupervisedModel)
    (dataframe : DataFrame) (number_top_features : Nat) : Except PyError DataFrame := do
  let prepared_dataframe ← self.prepare_and_subset dataframe
  let results ← dataframe.select [self.grain_column]
  let top_features := self.top_k_features prepared_dataframe number_top_features
  let reasons_df ← pdDataFrame top_features (reasonColNames number_top_features) dataframe.index
  pdConcatAxis1 results reasons_df dataframe.index

/-- `make_predictions_with_k_factors` (Python default `number_top_features=3`):
compute the factors and the predictions independently on the raw frame, then
assign the prediction list to the column named `prediction_column` on the
factor frame. -/
def TrainedSupervisedModel.make_predictions_with_k_factors (self : TrainedSupervisedModel)
    (dataframe : DataFrame) (number_top_features : Nat) : Except PyError DataFrame := do
  let results ← self.make_factors dataframe number_top_features
  let predictions_list ← self.make_predictions dataframe
  results.setColumn self.prediction_column predictions_list

/-- `create_all`: the source body first evaluates
`self.create_predictions_factors(original_df)`, but the class defines no
method or attribute of that name anywhere in the repository, so the Python
attribute lookup raises `AttributeError` before any other work; the concat on
the following line is unreachable for every input. -/
def TrainedSupervisedModel.create_all (self : TrainedSupervisedModel)
    (original_df : DataFrame) : Except PyError DataFrame :=
  Except.error (PyError.attributeError "create_predictions_factors")

/-- `save`: pickles the whole handle to the named file and prints a
confirmation.  The observable effect is the pair (object written, line
printed); the object written is the handle itself, unmodified. -/
def TrainedSupervisedModel.save (self : TrainedSupervisedModel) (filename : String) :
    TrainedSupervisedModel × String :=
  (self, "Model saved as " ++ filename)

/-- The expected columns that the pipeline output fails to provide for a given
raw frame: exactly the labels whose lookup makes the subset in
`prepare_and_subset` raise. -/
def missingAfterTransform (self : TrainedSupervisedModel) (dataframe : DataFrame) :
    List String :=
  self.column_names.filter (fun c => !((self.fit_pipeline dataframe).columns.contains c))

set_option linter.unusedVariables false

/-- Concrete three-row scoring table from the spec scenario: columns id, age,
bp and an extra notes column the model does not expect. -/
def demoTable : DataFrame :=
  ⟨[0, 1, 2], ["id", "age", "bp", "notes"],
   [[Value.int 101, Value.int 34, Value.int 120, Value.str "a"],
    [Value.int 102, Value.int 55, Value.int 140, Value.str "b"],
    [Value.int 103, Value.int 21, Value.int 110, Value.str "c"]]⟩

/-- The demo table with the required bp column dropped. -/
def demoTableNoBp : DataFrame :=
  ⟨[0, 1, 2], ["id", "age", "notes"],
   [[Value.int 101, Value.int 34, Value.str "a"],
    [Value.int 102, Value.int 55, Value.str "b"],
    [Value.int 103, Value.int 21, Value.str "c"]]⟩

/-- The demo table with the grain column id dropped. -/
def demoTableNoId : DataFrame :=
  ⟨[0, 1, 2], ["age", "bp", "notes"],
   [[Value.int 34, Value.int 120, Value.str "a"],
    [Value.int 55, Value.int 140, Value.str "b"],
    [Value.int 21, Value.int 110, Value.str "c"]]⟩

/-- A concrete handle over the demo schema: identity pipeline, a predictor
returning one constant value per row of its input, and an attribution
collaborator returning one k-wide factor row per row of its input. -/
def demoModel : TrainedSupervisedModel :=
  ⟨fun t => t.data.map (fun r => Value.int 1),
   fun t k => t.data.map (fun r => List.replicate k (Value.str "age")),
   fun t => t,
   "classification",
   ["age", "bp"],
   "id",
   "predicted",
   [],
   []⟩

/-- The prepared frame `prepare_and_subset` yields on the demo table. -/
def demoPrepared : DataFrame :=
  ⟨[0, 1, 2], ["age", "bp"],
   [[Value.int 34, Value.int 120],
    [Value.int 55, Value.int 140],
    [Value.int 21, Value.int 110]]⟩

/-- Decidable equality of fallible results, so that witnesses can evaluate the
operations on concrete frames. -/
instance {e a : Type} [DecidableEq e] [DecidableEq a] : DecidableEq (Except e a) := fun x y =>
  match x, y with
  | Except.ok u, Except.ok v =>
      if h : u = v then Decidable.isTrue (by rw [h])
      else Decidable.isFalse (fun hc => h (Except.ok.inj hc))
  | Except.ok _, Except.error _ => Decidable.isFalse Except.noConfusion
  | Except.error _, Except.ok _ => Decidable.isFalse Except.noConfusion
  | Except.error u, Except.error v =>
      if h : u = v then Decidable.isTrue (by rw [h])
      else Decidable.isFalse (fun hc => h (Except.error.inj hc))

/-!
State-passing forms of the method calls, for the frame property.  Each returns
(the handle as it stands after the call, the caller's table as it stands after
the call, the call's result).  They are obtained from the source bodies by
threading the two mutable positions through every statement: a Python
statement assigning to an attribute of `self`, or operating in place on the
caller's dataframe, would update the threaded state.  The bodies contain no
such statement — the single subscript-assignment in
`make_predictions_with_k_factors` targets the frame freshly created by
`make_factors`, and `save` only serializes `self` — so the state threads
through every method unchanged.
-/

/-- State-passing form of `prepare_and_subset`. -/
def prepare_and_subset_st (self : TrainedSupervisedModel) (dataframe : DataFrame) :
    TrainedSupervisedModel × DataFrame × Except PyError DataFrame :=
  (self, dataframe, self.prepare_and_subset dataframe)

/-- State-passing form of `make_predictions`. -/
def make_predictions_st (self : TrainedSupervisedModel) (dataframe : DataFrame) :
    TrainedSupervisedModel × DataFrame × Except PyError (List Value) :=
  (self, dataframe, self.make_predictions dataframe)

/-- State-passing form of `make_factors`. -/
def make_factors_st (self : TrainedSupervisedModel) (dataframe : DataFrame)
    (number_top_features : Nat) :
    TrainedSupervisedModel × DataFrame × Except PyError DataFrame :=
  (self, dataframe, self.make_factors dataframe number_top_features)

/-- State-passing form of `make_predictions_with_k_factors`. -/
def make_predictions_with_k_factors_st (self : TrainedSupervisedModel) (dataframe : DataFrame)
    (number_top_features : Nat) :
    TrainedSupervisedModel × DataFrame × Except PyError DataFrame :=
  (self, dataframe, self.make_predictions_with_k_factors dataframe number_top_features)

/-- State-passing form of `create_all`. -/
def create_all_st (self : TrainedSupervisedModel) (original_df : DataFrame) :
    TrainedSupervisedModel × DataFrame × Except PyError DataFrame :=
  (self, original_df, self.create_all original_df)

/-- State-passing form of `save`: the middle component is the handle after the
call and the last is the observable effect (object pickled, line printed). -/
def save_st (self : TrainedSupervisedModel) (filename : String) :
    TrainedSupervisedModel × (TrainedSupervisedModel × String) :=
  (self, self.save filename)

/-- The factor frame `make_factors` yields on the demo table with k = 2. -/
def demoFactorFrame : DataFrame :=
  ⟨[0, 1, 2], ["id", "Factor1TXT", "Factor2TXT"],
   [[Value.int 101, Value.str "age", Value.str "age"],
    [Value.int 102, Value.str "age", Value.str "age"],
    [Value.int 103, Value.str "age", Value.str "age"]]⟩
/-!  Basic facts about the dataframe operations, shared by the theorems. -/

lemma select_filter_eq_nil (df : DataFrame) (names : List String)
    (h : ∀ n ∈ names, n ∈ df.columns) :
    names.filter (fun n => !(df.columns.contains n)) = [] := by
  rw [List.filter_eq_nil_iff]
  intro a ha
  simp only [Bool.not_eq_true]
  simp [List.contains, List.elem_iff]
  exact h a ha

lemma select_of_forall_mem (df : DataFrame) (names : List String)
    (h : ∀ n ∈ names, n ∈ df.columns) :
    df.select names =
      Except.ok ⟨df.index, names, df.data.map (fun row => names.map (fun n => df.cell row n))⟩ := by
  simp [DataFrame.select, select_filter_eq_nil df names h]
  exact h

lemma select_of_filter_ne_nil (df : DataFrame) (names : List String)
    (h : names.filter (fun n => !(df.columns.contains n)) ≠ []) :
    df.select names =
      Except.error (PyError.keyError (names.filter (fun n => !(df.columns.contains n)))) := by
  have h2 := mt List.filter_eq_nil_iff.mpr h
  push_neg at h2
  obtain ⟨a, ha, hca⟩ := h2
  simp [DataFrame.select, List.isEmpty_iff, h]
  exact ⟨a, ha, by simpa using hca⟩

lemma prepare_of_no_missing (self : TrainedSupervisedModel) (df : DataFrame)
    (h : missingAfterTransform self df = []) :
    self.prepare_and_subset df = Except.ok
      ⟨(self.fit_pipeline df).index, self.column_names,
       (self.fit_pipeline df).data.map (fun row =>
         self.column_names.map (fun n => (self.fit_pipeline df).cell row n))⟩ := by
  have hmem : ∀ n ∈ self.column_names, n ∈ (self.fit_pipeline df).columns := by
    intro n hn
    have := List.filter_eq_nil_iff.mp h n hn
    simpa [List.contains, List.elem_iff] using this
  simp only [TrainedSupervisedModel.prepare_and_subset, select_of_forall_mem _ _ hmem]

lemma prepare_of_missing (self : TrainedSupervisedModel) (df : DataFrame)
    (h : missingAfterTransform self df ≠ []) :
    self.prepare_and_subset df = Except.error (PyError.healthcareAIError
      (missingColumnsMessage self.column_names df.columns (missingAfterTransform self df))) := by
  simp only [TrainedSupervisedModel.prepare_and_subset, select_of_filter_ne_nil _ _ h]
  rfl

lemma reindexRows_of_eq (df : DataFrame) (idx : List Int) (h : df.index = idx) :
    df.reindexRows idx = Except.ok df := by
  simp [DataFrame.reindexRows, h]

lemma pdDataFrame_of_shape (data : List (List Value)) (cols : List String) (idx : List Int)
    (h1 : data.length = idx.length) (h2 : ∀ r ∈ data, r.length = cols.length) :
    pdDataFrame data cols idx = Except.ok ⟨idx, cols, data⟩ := by
  unfold pdDataFrame
  rw [if_pos ⟨h1, h2⟩]

lemma reasonColNames_length (k : Nat) : (reasonColNames k).length = k := by
  simp [reasonColNames]

lemma setColumn_of_not_mem (df : DataFrame) (name : String) (vals : List Value)
    (hlen : vals.length = df.index.length) (hnew : name ∉ df.columns) :
    df.setColumn name vals = Except.ok
      ⟨df.index, df.columns ++ [name], (df.data.zip vals).map (fun rv => rv.1 ++ [rv.2])⟩ := by
  have hpos : df.colPos name = none := by
    rw [DataFrame.colPos, List.findIdx?_eq_none_iff]
    intro c hc
    simp only [beq_eq_false_iff_ne, ne_eq]
    intro hcn
    exact hnew (hcn ▸ hc)
  simp [DataFrame.setColumn, hlen, hpos]

lemma make_factors_eq (self : TrainedSupervisedModel) (df : DataFrame) (k : Nat) (p : DataFrame)
    (hp : self.prepare_and_subset df = Except.ok p)
    (hgrain : self.grain_column ∈ df.columns)
    (hlen : (self.top_k_features p k).length = df.index.length)
    (hrows : ∀ r ∈ self.top_k_features p k, r.length = k) :
    self.make_factors df k = Except.ok
      ⟨df.index, self.grain_column :: reasonColNames k,
       List.zipWith (fun r s => r ++ s)
         (df.data.map (fun row => [df.cell row self.grain_column]))
         (self.top_k_features p k)⟩ := by
  have hg : ∀ n ∈ [self.grain_column], n ∈ df.columns := by simpa using hgrain
  have h2 : ∀ r ∈ self.top_k_features p k, r.length = (reasonColNames k).length :=
    fun r hr => (hrows r hr).trans (reasonColNames_length k).symm
  unfold TrainedSupervisedModel.make_factors
  rw [hp]
  show ((df.select [self.grain_column]).bind fun results =>
    (pdDataFrame (self.top_k_features p k) (reasonColNames k) df.index).bind fun reasons_df =>
      pdConcatAxis1 results reasons_df df.index) = _
  rw [select_of_forall_mem _ _ hg, pdDataFrame_of_shape _ _ _ hlen h2]
  show pdConcatAxis1 _ _ _ = _
  unfold pdConcatAxis1
  rw [reindexRows_of_eq _ _ rfl, reindexRows_of_eq _ _ rfl]
  show Except.ok (hconcat2 _ _) = _
  unfold hconcat2
  simp

/-- C1: the specification states that `create_all` returns the horizontal
concatenation of the original raw table with the output of
`make_predictions_with_k_factors` aligned on the original row index; the
source instead calls the undefined method `create_predictions_factors`, so
every call raises `AttributeError` before any table is produced. -/
theorem create_all_always_raises_attributeError (self : TrainedSupervisedModel)
    (original_df : DataFrame) :
    self.create_all original_df =
      Except.error (PyError.attributeError "create_predictions_factors") := rfl

/-- C2: `prepare_and_subset` raises the enriched `HealthcareAIError` exactly
when the post-transform projection to `column_names` misses at least one
required name, and in no other case; the raised message enumerates the full
required list, the full list of columns of the caller's raw frame, and every
missing name. -/
theorem prepare_and_subset_missing_columns_spec (self : TrainedSupervisedModel)
    (df : DataFrame) :
    ((∃ r, self.prepare_and_subset df = Except.ok r) ↔ missingAfterTransform self df = [])
    ∧ (missingAfterTransform self df ≠ [] →
        self.prepare_and_subset df = Except.error (PyError.healthcareAIError
          (missingColumnsMessage self.column_names df.columns
            (missingAfterTransform self df)))) := by
  constructor
  · constructor
    · rintro ⟨r, hr⟩
      by_contra hne
      rw [prepare_of_missing self df hne] at hr
      exact Except.noConfusion hr
    · intro h
      exact ⟨_, prepare_of_no_missing self df h⟩
  · intro h
    exact prepare_of_missing self df h

/-- Witness for C2: dropping the required bp column from the demo table makes
`prepare_and_subset` raise the enriched error naming bp. -/
theorem prepare_and_subset_missing_columns_spec_witness :
    missingAfterTransform demoModel demoTableNoBp ≠ [] ∧
    demoModel.prepare_and_subset demoTableNoBp = Except.error (PyError.healthcareAIError
      (missingColumnsMessage ["age", "bp"] ["id", "age", "notes"] ["bp"])) :=
  ⟨by decide, (prepare_and_subset_missing_columns_spec demoModel demoTableNoBp).2 (by decide)⟩

/-- C3: for every raw frame on which preparation succeeds, a grain column
present in the raw frame, an attribution collaborator honouring its one-row-
per-row and k-cells-per-row contract, and k at least 1, `make_factors` returns
a frame with exactly 1 + k columns — the grain column first, then
Factor1TXT ... FactorKTXT in rank order — and as many rows as the input. -/
theorem make_factors_shape (self : TrainedSupervisedModel) (df : DataFrame) (k : Nat)
    (hk : 1 ≤ k)
    (hwf : df.data.length = df.index.length)
    (p : DataFrame) (hp : self.prepare_and_subset df = Except.ok p)
    (hgrain : self.grain_column ∈ df.columns)
    (hlen : (self.top_k_features p k).length = df.index.length)
    (hrows : ∀ r ∈ self.top_k_features p k, r.length = k) :
    ∃ r, self.make_factors df k = Except.ok r
      ∧ r.columns = self.grain_column :: reasonColNames k
      ∧ r.columns.length = 1 + k
      ∧ r.index = df.index
      ∧ r.data.length = df.index.length := by
  refine ⟨_, make_factors_eq self df k p hp hgrain hlen hrows, rfl, ?_, rfl, ?_⟩
  · simp [reasonColNames_length, Nat.add_comm]
  · simp [hwf, hlen]

/-- Witness for C3: on the demo table with k = 2 the factor frame has columns
id, Factor1TXT, Factor2TXT and three rows. -/
theorem make_factors_shape_witness :
    ∃ r, demoModel.make_factors demoTable 2 = Except.ok r
      ∧ r.columns = "id" :: reasonColNames 2
      ∧ r.columns.length = 1 + 2
      ∧ r.index = demoTable.index
      ∧ r.data.length = demoTable.index.length :=
  make_factors_shape demoModel demoTable 2 (by decide) (by decide) demoPrepared
    (by decide) (by decide) (by decide) (by decide)

/-- C4: `make_predictions_with_k_factors` returns exactly the `make_factors`
frame extended with one additional trailing column named `prediction_column`,
whose cell in each row is the corresponding element of the prediction list
returned by `make_predictions` on the same raw frame. -/
theorem make_predictions_with_k_factors_appends_predictions (self : TrainedSupervisedModel)
    (df : DataFrame) (k : Nat) (fr : DataFrame) (preds : List Value)
    (hf : self.make_factors df k = Except.ok fr)
    (hpred : self.make_predictions df = Except.ok preds)
    (hlen : preds.length = fr.index.length)
    (hnew : self.prediction_column ∉ fr.columns) :
    self.make_predictions_with_k_factors df k = Except.ok
      ⟨fr.index, fr.columns ++ [self.prediction_column],
       (fr.data.zip preds).map (fun rv => rv.1 ++ [rv.2])⟩ := by
  unfold TrainedSupervisedModel.make_predictions_with_k_factors
  rw [hf]
  show (self.make_predictions df).bind _ = _
  rw [hpred]
  show fr.setColumn self.prediction_column preds = _
  exact setColumn_of_not_mem fr _ preds hlen hnew

/-- Witness for C4: on the demo table with k = 2 the combined frame is the
factor frame with the predicted column appended on the right. -/
theorem make_predictions_with_k_factors_appends_predictions_witness :
    demoModel.make_predictions_with_k_factors demoTable 2 = Except.ok
      ⟨demoFactorFrame.index, demoFactorFrame.columns ++ ["predicted"],
       (demoFactorFrame.data.zip [Value.int 1, Value.int 1, Value.int 1]).map
         (fun rv => rv.1 ++ [rv.2])⟩ :=
  make_predictions_with_k_factors_appends_predictions demoModel demoTable 2
    demoFactorFrame [Value.int 1, Value.int 1, Value.int 1]
    (by decide) (by decide) (by decide) (by decide)

/-- C5: whenever preparation succeeds, the prepared frame has exactly the
columns of `column_names` in that order; raw columns outside `column_names`
never cause a failure and never appear in the prepared frame. -/
theorem prepare_and_subset_projects_expected_columns (self : TrainedSupervisedModel)
    (df : DataFrame) (h : missingAfterTransform self df = []) :
    ∃ r, self.prepare_and_subset df = Except.ok r
      ∧ r.columns = self.column_names
      ∧ (∀ c ∈ df.columns, c ∉ self.column_names → c ∉ r.columns) := by
  refine ⟨_, prepare_of_no_missing self df h, rfl, ?_⟩
  intro c hc hnc
  exact hnc

/-- Witness for C5: the demo table carries the extra notes column, the call
succeeds, and the prepared frame has exactly the expected columns age, bp. -/
theorem prepare_and_subset_projects_expected_columns_witness :
    ∃ r, demoModel.prepare_and_subset demoTable = Except.ok r
      ∧ r.columns = ["age", "bp"]
      ∧ (∀ c ∈ demoTable.columns, c ∉ (["age", "bp"] : List String) → c ∉ r.columns) :=
  prepare_and_subset_projects_expected_columns demoModel demoTable (by decide)

/-- C6: on a raw frame whose preparation succeeds, with a pipeline preserving
the row index and a predictor returning one value per row of its input,
`make_predictions` returns the predictor output on the prepared frame: a list
with exactly one value per input row, in row order. -/
theorem make_predictions_length_spec (self : TrainedSupervisedModel) (df : DataFrame)
    (hpipe : (self.fit_pipeline df).index = df.index)
    (p : DataFrame) (hp : self.prepare_and_subset df = Except.ok p)
    (hmodel : (self.model p).length = p.index.length) :
    ∃ preds, self.make_predictions df = Except.ok preds
      ∧ preds = self.model p
      ∧ preds.length = df.index.length := by
  have hmiss : missingAfterTransform self df = [] := by
    by_contra hne
    rw [prepare_of_missing self df hne] at hp
    exact Except.noConfusion hp
  have hpv := prepare_of_no_missing self df hmiss
  rw [hp] at hpv
  have hpidx : p.index = (self.fit_pipeline df).index := by
    rw [Except.ok.inj hpv]
  refine ⟨_, ?_, rfl, ?_⟩
  · unfold TrainedSupervisedModel.make_predictions
    rw [hp]
    rfl
  · rw [hmodel, hpidx, hpipe]

/-- Witness for C6: the demo predictor returns three values on the three-row
demo table. -/
theorem make_predictions_length_spec_witness :
    ∃ preds, demoModel.make_predictions demoTable = Except.ok preds
      ∧ preds = demoModel.model demoPrepared
      ∧ preds.length = demoTable.index.length :=
  make_predictions_length_spec demoModel demoTable (by decide) demoPrepared
    (by decide) (by decide)

/-- C7: `make_predictions` always takes the generic point-prediction path —
its result is the predictor entry point mapped over the prepared frame — and
the `model_type` tag has no effect on the result: replacing it by any other
tag leaves the result unchanged. -/
theorem make_predictions_ignores_model_type (self : TrainedSupervisedModel)
    (df : DataFrame) (mt : String) :
    TrainedSupervisedModel.make_predictions
      ⟨self.model, self.top_k_features, self.fit_pipeline, mt, self.column_names,
       self.grain_column, self.prediction_column, self.y_pred, self.y_actual⟩ df
      = self.make_predictions df
    ∧ self.make_predictions df = (self.prepare_and_subset df).map self.model := by
  constructor
  · rfl
  · unfold TrainedSupervisedModel.make_predictions
    cases self.prepare_and_subset df <;> rfl

/-- C8: every operation leaves the handle's fields and the caller's input
table unchanged: in the state-passing forms of persist, prepare, predict,
explain, predict-with-explanation and assemble-full, the threaded handle and
the threaded caller table come back identical to what went in, and `save`
serializes exactly the unmodified handle. -/
theorem operations_preserve_handle_and_input (self : TrainedSupervisedModel)
    (df : DataFrame) (k : Nat) (filename : String) :
    (prepare_and_subset_st self df).1 = self ∧ (prepare_and_subset_st self df).2.1 = df
    ∧ (make_predictions_st self df).1 = self ∧ (make_predictions_st self df).2.1 = df
    ∧ (make_factors_st self df k).1 = self ∧ (make_factors_st self df k).2.1 = df
    ∧ (make_predictions_with_k_factors_st self df k).1 = self
    ∧ (make_predictions_with_k_factors_st self df k).2.1 = df
    ∧ (create_all_st self df).1 = self ∧ (create_all_st self df).2.1 = df
    ∧ (save_st self filename).1 = self ∧ (save_st self filename).2.1 = self :=
  ⟨rfl, rfl, rfl, rfl, rfl, rfl, rfl, rfl, rfl, rfl, rfl, rfl⟩

/-- C9: when preparation would succeed but the grain column is absent from
the raw frame, `make_factors` — and hence `make_predictions_with_k_factors` —
fails with the plain underlying `KeyError` naming the grain column, not with
the enriched `HealthcareAIError`: the grain lookup sits outside the guarded
prepare step. -/
theorem make_factors_missing_grain_plain_keyError (self : TrainedSupervisedModel)
    (df : DataFrame) (k : Nat)
    (hmiss : missingAfterTransform self df = [])
    (hgrain : self.grain_column ∉ df.columns) :
    self.make_factors df k = Except.error (PyError.keyError [self.grain_column])
    ∧ self.make_predictions_with_k_factors df k =
        Except.error (PyError.keyError [self.grain_column]) := by
  have hfil : List.filter (fun n => !(df.columns.contains n)) [self.grain_column]
      = [self.grain_column] := by
    simp [List.filter, hgrain]
  have hsel : df.select [self.grain_column] =
      Except.error (PyError.keyError [self.grain_column]) := by
    rw [select_of_filter_ne_nil df [self.grain_column] (by rw [hfil]; exact List.cons_ne_nil _ _),
      hfil]
  have h1 : self.make_factors df k = Except.error (PyError.keyError [self.grain_column]) := by
    unfold TrainedSupervisedModel.make_factors
    rw [prepare_of_no_missing self df hmiss]
    show (df.select [self.grain_column]).bind _ = _
    rw [hsel]
    rfl
  refine ⟨h1, ?_⟩
  unfold TrainedSupervisedModel.make_predictions_with_k_factors
  rw [h1]
  rfl

/-- Witness for C9: dropping the id column from the demo table makes both
operations fail with the plain KeyError naming id. -/
theorem make_factors_missing_grain_plain_keyError_witness :
    demoModel.make_factors demoTableNoId 2 = Except.error (PyError.keyError ["id"])
    ∧ demoModel.make_predictions_with_k_factors demoTableNoId 2 =
        Except.error (PyError.keyError ["id"]) :=
  make_factors_missing_grain_plain_keyError demoModel demoTableNoId 2 (by decide) (by decide)

/-- C10: the attribution output is paired with input rows strictly
positionally: the factor frame is built on the raw frame's own index, the
final concatenation is forced onto that same index, and the result is exactly
the raw frame's index together with, in each row, the grain cell of that row
followed by the corresponding inner sequence of the attribution output. -/
theorem make_factors_positional_alignment (self : TrainedSupervisedModel) (df : DataFrame)
    (k : Nat) (p : DataFrame)
    (hp : self.prepare_and_subset df = Except.ok p)
    (hgrain : self.grain_column ∈ df.columns)
    (hlen : (self.top_k_features p k).length = df.index.length)
    (hrows : ∀ r ∈ self.top_k_features p k, r.length = k) :
    self.make_factors df k = Except.ok
      ⟨df.index, self.grain_column :: reasonColNames k,
       List.zipWith (fun r s => r ++ s)
         (df.data.map (fun row => [df.cell row self.grain_column]))
         (self.top_k_features p k)⟩ :=
  make_factors_eq self df k p hp hgrain hlen hrows

/-- Witness for C10: on the demo table the factor frame keeps the raw index
0, 1, 2 and row i holds the id cell of row i followed by the attribution
output for row i. -/
theorem make_factors_positional_alignment_witness :
    demoModel.make_factors demoTable 2 = Except.ok
      ⟨demoTable.index, "id" :: reasonColNames 2,
       List.zipWith (fun r s => r ++ s)
         (demoTable.data.map (fun row => [demoTable.cell row "id"]))
         (demoModel.top_k_features demoPrepared 2)⟩ :=
  make_factors_positional_alignment demoModel demoTable 2 demoPrepared
    (by decide) (by decide) (by decide) (by decide)
